import Mathlib

/-!
Verification development for the selium microkernel's hostcall pipeline,
resource registry, session capability model, shared-memory arena and driver
status codec.

Rust sources embedded here (shallow embedding, machine integers as `Nat`
with explicit range checks, fallible paths as `Option`/`Except`):
  - crates/kernel/src/hostcalls/mod.rs       (poll_state, drop_state)
  - crates/kernel/src/hostcalls/session.rs   (session mutation drivers)
  - crates/kernel/src/hostcalls/process.rs   (ProcessStartDriver)
  - crates/kernel/src/hostcalls/shm.rs       (ShmShareDriver, ShmAttachDriver)
  - crates/kernel/src/services/singleton_service.rs
  - crates/runtime/src/providers/shared_memory_arena.rs
  - crates/runtime/src/wasmtime/guest_data.rs (write_poll_result, encode_ready_len)
  - crates/kernel/src/guest_error.rs, crates/kernel/src/lib.rs (error enums)

Parts of the repository referenced by the sources above but not shipped in
the source tree (the registry module, the future shared state, the session
service and the ABI crate root with the driver status codec) are modelled
from the specification; each such definition carries a doc comment starting
with `Modelled from the spec:`.
-/

namespace Selium

/-! ## Association-list finite maps

The Rust registry tables are hash maps; we model them as association lists
with map semantics (insertion replaces, erasure removes every binding). -/

/-- Look up the value bound to key `k`. -/
def alookup {κ α : Type} [DecidableEq κ] (k : κ) : List (κ × α) → Option α
  | [] => none
  | (k₂, v) :: rest => if k = k₂ then some v else alookup k rest

/-- Remove every binding of key `k`. -/
def aerase {κ α : Type} [DecidableEq κ] (k : κ) : List (κ × α) → List (κ × α)
  | [] => []
  | p :: rest => if p.1 = k then aerase k rest else p :: aerase k rest

/-- Bind key `k` to `v`, replacing any previous binding. -/
def aset {κ α : Type} [DecidableEq κ] (k : κ) (v : α) (l : List (κ × α)) : List (κ × α) :=
  (k, v) :: aerase k l

/-! ## Error taxonomies

From crates/kernel/src/lib.rs (`KernelError`), the spec §4.1
(`RegistryError`, the registry module is absent from the source tree) and
crates/kernel/src/guest_error.rs (`GuestError`). -/

/-- Modelled from the spec: `RegistryError::{Exhausted, WrongKind, NotFound}` (§4.1). -/
inductive RegistryError : Type
  | exhausted
  | wrongKind
  | notFound
deriving DecidableEq, Repr

/-- Kernel-internal error taxonomy, from `KernelError` in crates/kernel/src/lib.rs. -/
inductive KernelError : Type
  | engine (msg : String)
  | memoryAccess (msg : String)
  | memoryCapacity
  | memoryMissing
  | intConvert
  | invalidHandle
  | registry (e : RegistryError)
  | driver (msg : String)
deriving DecidableEq, Repr

/-- Guest-visible error taxonomy, from `GuestError` in crates/kernel/src/guest_error.rs. -/
inductive GuestError : Type
  | invalidArgument
  | invalidUtf8
  | memorySlice
  | notFound
  | permissionDenied
  | kernel (e : KernelError)
  | registryErr (e : RegistryError)
  | stableIdExists
  | subsystem (msg : String)
  | wouldBlock
deriving DecidableEq, Repr

/-! ## Capabilities and resource kinds -/

/-- Capability set, from the hostcall catalogue (crates/abi/src/hostcalls.rs). -/
inductive Capability : Type
  | sessionLifecycle
  | singletonRegistry
  | singletonLookup
  | timeRead
  | processLifecycle
  | sharedMemory
deriving DecidableEq, Repr

/-- Resource kind tag, closed set from the spec §3.2 and the kernel sources. -/
inductive ResourceType : Type
  | session
  | process
  | sharedMemory
  | future
  | other
deriving DecidableEq, Repr

/-! ## Session principal

Modelled from the spec §3.3/§4.2: the session service module is absent from
the source tree; only its trait (crates/kernel/src/spi/session.rs) and its
callers ship. -/

/-- Modelled from the spec: a session is a principal with a 32-byte public key
and a map `capability → set<ResourceId>`; an empty set means the capability is
held globally, a non-empty set narrows it to those targets (§3.3). -/
structure Session : Type where
  pubkey : List Nat
  entitlements : List (Capability × List Nat)
deriving DecidableEq, Repr

namespace Session

/-- Modelled from the spec: `authorise(cap, target)` is true iff the map
contains `cap` and the scope is either unrestricted (empty) or contains
`target` (§3.3). -/
def authorise (s : Session) (cap : Capability) (target : Nat) : Bool :=
  match alookup cap s.entitlements with
  | none => false
  | some scope => scope.isEmpty || scope.contains target

/-- Modelled from the spec: `bootstrap(entitlements, pubkey)` constructs a root
session with the listed capabilities, scope unrestricted (§4.2). -/
def bootstrap (caps : List Capability) (pubkey : List Nat) : Session :=
  { pubkey := pubkey, entitlements := caps.map fun c => (c, []) }

/-- Modelled from the spec: `add_entitlement(cap)` is idempotent — adding an
already-present capability is a no-op; a fresh capability starts with an
unrestricted (empty) scope (§4.2). -/
def addEntitlement (s : Session) (cap : Capability) : Session :=
  match alookup cap s.entitlements with
  | some _ => s
  | none => { s with entitlements := (cap, []) :: s.entitlements }

/-- Modelled from the spec: `rm_entitlement(cap)` removes the capability;
removing an absent one is a no-op (§4.2). -/
def rmEntitlement (s : Session) (cap : Capability) : Session :=
  { s with entitlements := aerase cap s.entitlements }

/-- Modelled from the spec: `add_resource(cap, resource)` mutates the scoped
set and returns `true` iff the set actually changed (§4.2). -/
def addResource (s : Session) (cap : Capability) (r : Nat) : Session × Bool :=
  match alookup cap s.entitlements with
  | none => (s, false)
  | some scope =>
    if scope.contains r then (s, false)
    else ({ s with entitlements := aset cap (r :: scope) s.entitlements }, true)

/-- Modelled from the spec: `rm_resource(cap, resource)` mutates the scoped
set and returns `true` iff the set actually changed (§4.2). -/
def rmResource (s : Session) (cap : Capability) (r : Nat) : Session × Bool :=
  match alookup cap s.entitlements with
  | none => (s, false)
  | some scope =>
    if scope.contains r then
      ({ s with entitlements := aset cap (scope.filter fun x => decide (x ≠ r)) s.entitlements },
        true)
    else (s, false)

end Session

/-! ## Future shared state

Modelled from the spec §3.4: the kernel async module (`FutureSharedState`)
is absent from the source tree; its API (`new`, `resolve`, `register_waker`,
`take_result`, `abandon`) is visible in crates/kernel/src/hostcalls/mod.rs. -/

/-- Guest payload bytes. -/
abbrev Bytes : Type := List Nat

instance {ε α : Type} [DecidableEq ε] [DecidableEq α] : DecidableEq (Except ε α) := fun x y =>
  match x, y with
  | .ok a, .ok b => decidable_of_iff (a = b) (by simp)
  | .ok _, .error _ => isFalse (by simp)
  | .error _, .ok _ => isFalse (by simp)
  | .error e, .error f => decidable_of_iff (e = f) (by simp)

/-- Modelled from the spec: the shared state of a hostcall future holds at most
one resolved result (`Pending` = no result yet, `Ready` = a stored result),
an abandoned flag, and at most one registered waker (§3.4). -/
structure FutureState : Type where
  result : Option (Except GuestError Bytes)
  abandoned : Bool
  waker : Option Nat
deriving DecidableEq, Repr

namespace FutureState

/-- Modelled from the spec: a freshly created state is `Pending` with no waker. -/
def new : FutureState := ⟨none, false, none⟩

/-- Modelled from the spec: the executor resolves the state once
(`Pending → Ready`); an abandoned state drops the result (§3.4, §5). -/
def resolve (st : FutureState) (r : Except GuestError Bytes) : FutureState :=
  if st.abandoned then st else { st with result := some r }

/-- Modelled from the spec: register the waker of the guest task currently
polling; at most one waker is kept (§3.4). -/
def registerWaker (st : FutureState) (w : Nat) : FutureState :=
  { st with waker := some w }

/-- Modelled from the spec: `take_result` removes and returns the stored
result; `None` means the future is still pending (§4.5). -/
def takeResult (st : FutureState) : Option (Except GuestError Bytes) × FutureState :=
  (st.result, { st with result := none })

/-- Modelled from the spec: `abandon` marks the state `Abandoned`, dropping any
pending result (§3.4). -/
def abandon (st : FutureState) : FutureState :=
  { st with abandoned := true, result := none }

end FutureState

/-! ## Shared-memory ABI payloads (crates/abi/src/shm.rs) -/

/-- A byte range inside the shared-memory arena (`ShmRegion`). Fields are
`u32` on the wire; range hypotheses appear in the theorems. -/
structure ShmRegion : Type where
  offset : Nat
  len : Nat
deriving DecidableEq, Repr

/-- Descriptor for an attached shared-memory resource (`ShmDescriptor`). -/
structure ShmDescriptor : Type where
  resourceId : Nat
  sharedId : Nat
  region : ShmRegion
deriving DecidableEq, Repr

/-! ## Resource registry

Modelled from the spec §4.1: the registry module is absent from the source
tree; only its callers ship. The registry stores heterogeneously typed
entries behind a closed set of stored types (spec §9, "the set of stored
types is closed by the driver catalogue"), per-instance slot and alias
tables, and the singleton map. The process-wide tables and the per-instance
slot table are combined in one structure (`InstanceRegistry` in the sources
is a slot table plus a handle onto the root `Registry`). -/

/-- Modelled from the spec: the closed set of values a registry entry can
store (§3.2, §9). -/
inductive ResourceValue : Type
  | session (s : Session)
  | region (r : ShmRegion)
  | future (st : FutureState)
  | process (tag : Nat)
  | other (tag : Nat)
deriving DecidableEq, Repr

/-- Modelled from the spec: a registry entry carries an optional value (absent
for reserved ids), a `ResourceType` tag and an optional parent (§3.2, §4.1). -/
structure Entry : Type where
  value : Option ResourceValue
  kind : ResourceType
  parent : Option Nat
deriving DecidableEq, Repr

/-- The 16-byte singleton dependency identifier (crates/abi/src/singleton.rs). -/
structure DependencyId : Type where
  bytes : List Nat
deriving DecidableEq, Repr

/-- Modelled from the spec: the registry tables — monotone resource ids,
shared aliases, singleton map, per-instance slots, and the bound guest-poll
mailbox (§4.1). -/
structure InstanceRegistry : Type where
  nextId : Nat
  resources : List (Nat × Entry)
  nextShared : Nat
  shared : List (Nat × Nat)
  singletons : List (DependencyId × Nat)
  nextSlot : Nat
  slots : List (Nat × Nat)
  mailbox : Bool
deriving DecidableEq, Repr

namespace InstanceRegistry

/-- Modelled from the spec: `metadata(id)` — kind and parent of a live entry,
readable without downcasting (§3.2). -/
def metadata (reg : InstanceRegistry) (id : Nat) : Option (ResourceType × Option Nat) :=
  (alookup id reg.resources).map fun e => (e.kind, e.parent)

/-- Modelled from the spec: `add(value, parent, kind)` allocates a fresh id
and stores value plus metadata (§4.1). Ids are `Nat`, so the `Exhausted`
failure of the bounded id space cannot occur in the model. -/
def add (reg : InstanceRegistry) (v : ResourceValue) (parent : Option Nat)
    (kind : ResourceType) : InstanceRegistry × Nat :=
  ({ reg with
      nextId := reg.nextId + 1
      resources := aset reg.nextId ⟨some v, kind, parent⟩ reg.resources },
    reg.nextId)

/-- Modelled from the spec: `reserve(parent, kind)` allocates an id with no
value yet (§4.1). -/
def reserve (reg : InstanceRegistry) (parent : Option Nat)
    (kind : ResourceType) : InstanceRegistry × Nat :=
  ({ reg with
      nextId := reg.nextId + 1
      resources := aset reg.nextId ⟨none, kind, parent⟩ reg.resources },
    reg.nextId)

/-- Modelled from the spec: `discard(id)` releases a reservation without a
value (§4.1). -/
def discard (reg : InstanceRegistry) (id : Nat) : InstanceRegistry :=
  { reg with resources := aerase id reg.resources }

/-- Modelled from the spec: `share_handle(ResourceId) → SharedId` mints (or
returns an existing) cross-instance alias (§4.1). -/
def shareHandle (reg : InstanceRegistry) (rid : Nat) : InstanceRegistry × Nat :=
  match reg.shared.find? fun p => p.2 == rid with
  | some p => (reg, p.1)
  | none =>
    ({ reg with
        nextShared := reg.nextShared + 1
        shared := aset reg.nextShared rid reg.shared },
      reg.nextShared)

/-- Modelled from the spec: `resolve_shared(SharedId) → Option<ResourceId>` (§4.1). -/
def resolveShared (reg : InstanceRegistry) (sid : Nat) : Option Nat :=
  alookup sid reg.shared

/-- Modelled from the spec: `register_singleton(DependencyId, ResourceId)` is
insert-if-absent and returns `false` if the key was present (§4.1). -/
def registerSingleton (reg : InstanceRegistry) (id : DependencyId)
    (rid : Nat) : InstanceRegistry × Bool :=
  match alookup id reg.singletons with
  | some _ => (reg, false)
  | none => ({ reg with singletons := aset id rid reg.singletons }, true)

/-- Modelled from the spec: `singleton(DependencyId) → Option<ResourceId>` (§4.1). -/
def singleton (reg : InstanceRegistry) (id : DependencyId) : Option Nat :=
  alookup id reg.singletons

/-- Modelled from the spec: `entry(slot) → Option<ResourceId>` on the
per-instance slot table (§4.1). -/
def entry (reg : InstanceRegistry) (slot : Nat) : Option Nat :=
  alookup slot reg.slots

/-- Modelled from the spec: `insert(value, parent, kind)` adds the resource
process-wide and assigns a fresh slot (§4.1). -/
def insert (reg : InstanceRegistry) (v : ResourceValue) (parent : Option Nat)
    (kind : ResourceType) : InstanceRegistry × Nat :=
  let p := reg.add v parent kind
  ({ p.1 with nextSlot := p.1.nextSlot + 1, slots := aset p.1.nextSlot p.2 p.1.slots },
    p.1.nextSlot)

/-- Modelled from the spec: `insert_id(resource)` registers an already-live
resource under a new slot (§4.1). -/
def insertId (reg : InstanceRegistry) (rid : Nat) : InstanceRegistry × Nat :=
  ({ reg with nextSlot := reg.nextSlot + 1, slots := aset reg.nextSlot rid reg.slots },
    reg.nextSlot)

/-- Modelled from the spec: `detach_slot(slot)` removes the slot association
without destroying the resource (§4.1). -/
def detachSlot (reg : InstanceRegistry) (slot : Nat) : Option (InstanceRegistry × Nat) :=
  (alookup slot reg.slots).map fun rid =>
    ({ reg with slots := aerase slot reg.slots }, rid)

/-- Modelled from the spec: typed read access `with::<Session>` through a slot;
`None` if the slot is unknown or the entry is not a `Session` (§4.1, §9). -/
def withSession (reg : InstanceRegistry) (slot : Nat) : Option Session :=
  match entry reg slot with
  | none => none
  | some rid =>
    match alookup rid reg.resources with
    | none => none
    | some e =>
      match e.value with
      | some (.session s) => some s
      | _ => none

/-- Modelled from the spec: typed mutable access `with::<Session>(slot, f)`;
the closure result is returned together with the updated registry (§4.1). -/
def updateSession {α : Type} (reg : InstanceRegistry) (slot : Nat)
    (f : Session → Session × α) : Option (InstanceRegistry × α) :=
  match entry reg slot with
  | none => none
  | some rid =>
    match alookup rid reg.resources with
    | none => none
    | some e =>
      match e.value with
      | some (.session s) =>
        let p := f s
        some ({ reg with resources := aset rid { e with value := some (.session p.1) } reg.resources },
          p.2)
      | _ => none

/-- Modelled from the spec: typed `remove::<Session>(slot)` — consume the slot
and its entry (and all aliases) when the entry is a `Session`; `None`
otherwise, with no change (§4.1). -/
def removeSessionSlot (reg : InstanceRegistry) (slot : Nat) : InstanceRegistry :=
  match entry reg slot with
  | none => reg
  | some rid =>
    match alookup rid reg.resources with
    | none => reg
    | some e =>
      match e.value with
      | some (.session _) =>
        { reg with
            slots := aerase slot reg.slots
            resources := aerase rid reg.resources
            shared := reg.shared.filter fun p => decide (p.2 ≠ rid) }
      | _ => reg

/-- Modelled from the spec: typed read of a stored `ShmRegion` through a raw
resource id, as `with(ResourceHandle::<ShmRegion>::new(rid), |r| *r)` (§4.1). -/
def withRegion (reg : InstanceRegistry) (rid : Nat) : Option ShmRegion :=
  match alookup rid reg.resources with
  | none => none
  | some e =>
    match e.value with
    | some (.region r) => some r
    | _ => none

/-- Modelled from the spec: `future_state(slot)` returns the shared state of a
`Future`-kind slot (§4.1). -/
def futureState (reg : InstanceRegistry) (slot : Nat) : Option FutureState :=
  match entry reg slot with
  | none => none
  | some rid =>
    match alookup rid reg.resources with
    | none => none
    | some e =>
      match e.value with
      | some (.future st) => some st
      | _ => none

/-- Modelled from the spec: write back the (shared) future state of a live
`Future`-kind slot; mirrors mutation of the shared state through its `Arc`. -/
def setFutureState (reg : InstanceRegistry) (slot : Nat) (st : FutureState) : InstanceRegistry :=
  match entry reg slot with
  | none => reg
  | some rid =>
    match alookup rid reg.resources with
    | none => reg
    | some e =>
      match e.value with
      | some (.future _) =>
        { reg with resources := aset rid { e with value := some (.future st) } reg.resources }
      | _ => reg

/-- Modelled from the spec: `remove_future(slot)` consumes the slot and its
`Future`-kind entry, returning the shared state (§4.1); a poll that returns
ready removes the slot (§3.2). -/
def removeFuture (reg : InstanceRegistry) (slot : Nat) : InstanceRegistry × Option FutureState :=
  match entry reg slot with
  | none => (reg, none)
  | some rid =>
    match alookup rid reg.resources with
    | none => (reg, none)
    | some e =>
      match e.value with
      | some (.future st) =>
        ({ reg with
            slots := aerase slot reg.slots
            resources := aerase rid reg.resources
            shared := reg.shared.filter fun p => decide (p.2 ≠ rid) },
          some st)
      | _ => (reg, none)

/-- Modelled from the spec: `insert_future(shared_state)` stores a future under
a fresh slot tagged `Future` (§4.1). -/
def insertFuture (reg : InstanceRegistry) (st : FutureState) : InstanceRegistry × Nat :=
  insert reg (.future st) none .future

/-- Modelled from the spec: `waker(task_id)` delegates to the bound guest-poll
mailbox; the waker token is modelled by the task id (§4.1, §6). -/
def waker (reg : InstanceRegistry) (taskId : Nat) : Option Nat :=
  if reg.mailbox then some taskId else none

end InstanceRegistry

/-! ## Driver status word codec

Modelled from the spec §4.3: the ABI crate root defining
`driver_encode_ready`, `driver_encode_error`, `driver_decode_result`,
`DRIVER_RESULT_PENDING` and `DRIVER_ERROR_MESSAGE_CODE` is absent from the
source tree; only its callers (crates/runtime/src/wasmtime/guest_data.rs and
crates/userland/src/driver.rs) ship. The status word is a `u32`; `0` is the
pending sentinel, a positive word below the half-space partition encodes a
ready byte count, and the upper half carries error codes. Because `0` is
taken by the sentinel, ready counts are shifted by one on the wire (the drop
hook really returns ready(0), so a ready count of `0` must be encodable). -/

/-- Modelled from the spec: the pending sentinel `DRIVER_RESULT_PENDING = 0` (§4.3). -/
def driverResultPending : Nat := 0

/-- Modelled from the spec: the half-space boundary of the `u32` status word;
words strictly below it (other than `0`) are ready counts, words at or above
it are error codes (§4.3). -/
def driverHalfSpace : Nat := 2 ^ 31

/-- Modelled from the spec: the largest encodable ready byte count; the
partition point leaves the upper half to the reserved error codes (§4.3). -/
def driverReadyLimit : Nat := driverHalfSpace - 1

/-- Modelled from the spec: a reserved error code lives in the upper half of
the `u32` status space (§4.3). -/
def ReservedErrorCode (c : Nat) : Prop :=
  driverHalfSpace ≤ c ∧ c < 2 ^ 32

/-- Modelled from the spec: `DRIVER_ERROR_MESSAGE_CODE`, the reserved code
meaning "the error message was written into the result buffer" (§4.3, §7). -/
def driverErrorMessageCode : Nat := driverHalfSpace

/-- Modelled from the spec: `driver_encode_ready(n)` packs a ready byte count
into a positive word below the half-space partition; `none` when the count
does not fit (§4.3; the `Option` is visible at the call sites in
guest_data.rs and driver.rs). -/
def driverEncodeReady (n : Nat) : Option Nat :=
  if n + 1 < driverHalfSpace then some (n + 1) else none

/-- Modelled from the spec: `driver_encode_error(code)` returns the reserved
code itself — error codes already live in the upper half (§4.3). -/
def driverEncodeError (c : Nat) : Nat := c

/-- Decoded driver status (`DriverPollResult` in the ABI crate). -/
inductive DriverPollResult : Type
  | pending
  | ready (n : Nat)
  | errorCode (c : Nat)
deriving DecidableEq, Repr

/-- Modelled from the spec: `driver_decode_result(word)` — `0` is pending, a
positive word below the half-space partition is a ready count, anything else
is an error code (§4.3). -/
def driverDecodeResult (w : Nat) : DriverPollResult :=
  if w = 0 then .pending
  else if w < driverHalfSpace then .ready (w - 1)
  else .errorCode w

/-! ## Guest result transport (crates/runtime/src/wasmtime/guest_data.rs) -/

/-- Conversion to `u32` with the `try_from` failure made explicit. -/
def castU32 (n : Nat) : Option Nat :=
  if n < 2 ^ 32 then some n else none

/-- Checked `u64` addition. -/
def checkedAddU64 (a b : Nat) : Option Nat :=
  if a + b < 2 ^ 64 then some (a + b) else none

/-- From `encode_ready_len` in guest_data.rs: convert a payload length to a
ready status word, failing with `MemoryCapacity` when it does not fit. -/
def encodeReadyLen (len : Nat) : Except KernelError Nat :=
  match castU32 len with
  | none => .error .memoryCapacity
  | some n =>
    match driverEncodeReady n with
    | some w => .ok w
    | none => .error .memoryCapacity

/-- The kernel error message rendered for a guest error, from the `thiserror`
attributes in crates/kernel/src/guest_error.rs. -/
def errorMessage : GuestError → String
  | .invalidArgument => "invalid argument"
  | .invalidUtf8 => "Invalid UTF-8 in guest input"
  | .memorySlice => "Invalid guest memory slice"
  | .notFound => "resource not found"
  | .permissionDenied => "permission denied"
  | .kernel _ => "The kernel encountered an error. Please report this to your administrator."
  | .registryErr _ => "The kernel Registry encountered an error. Please report this to your administrator."
  | .stableIdExists => "Stable identifier already exists"
  | .subsystem m => "internal error: " ++ m
  | .wouldBlock => "This function would block"

/-- Modelled from the spec: `encode_driver_error_message` frames the error
message for the guest result buffer (§4.3, §7); modelled as the message
bytes. -/
def encodeDriverErrorMessage (e : GuestError) : Bytes :=
  (errorMessage e).data.map Char.toNat

/-- From `encode_for_guest` in guest_data.rs: `WouldBlock` becomes the pending
sentinel; every other error writes its message into the result buffer and
returns the reserved message code. -/
def encodeForGuest (capacity : Nat) (e : GuestError) : Except KernelError Nat :=
  if e = .wouldBlock then .ok driverResultPending
  else
    let bytes := encodeDriverErrorMessage e
    if capacity < bytes.length then .error .memoryCapacity
    else .ok (driverEncodeError driverErrorMessageCode)

/-- From `write_poll_result` in guest_data.rs: transport a hostcall result to
the guest as a status word, copying payload bytes into the caller buffer of
the given capacity. -/
def writePollResult (capacity : Nat) (result : Except GuestError Bytes) :
    Except KernelError Nat :=
  match result with
  | .ok bytes => if capacity < bytes.length then .error .memoryCapacity else encodeReadyLen bytes.length
  | .error e => encodeForGuest capacity e

/-! ## Operation poll / drop hooks (crates/kernel/src/hostcalls/mod.rs) -/

open InstanceRegistry in
/-- From `Operation::poll_state` in crates/kernel/src/hostcalls/mod.rs:
look up the shared state by slot (missing → `NotFound`), register the guest
waker (unavailable mailbox → kernel `Driver` error), take the resolved
result (`None` → `WouldBlock`, i.e. pending), and remove the slot for every
taken result. -/
def pollState (reg : InstanceRegistry) (stateId taskId : Nat) :
    Except KernelError (InstanceRegistry × Except GuestError Bytes) :=
  match reg.futureState stateId with
  | none => .ok (reg, .error .notFound)
  | some st =>
    match reg.waker taskId with
    | none => .error (.driver "guest mailbox unavailable")
    | some w =>
      let st₁ := st.registerWaker w
      let taken := st₁.takeResult
      match taken.1 with
      | none => .ok (reg.setFutureState stateId taken.2, .error .wouldBlock)
      | some output => .ok ((reg.removeFuture stateId).1, output)

open InstanceRegistry in
/-- From `Operation::drop_state` in crates/kernel/src/hostcalls/mod.rs:
remove the slot; when it held a state, abandon that shared state and return
`Ok` with an empty payload (ready(0) on the wire); otherwise `NotFound`.
The middle component is the final shared state as seen by the in-flight
executor task through its `Arc`. -/
def dropState (reg : InstanceRegistry) (stateId : Nat) :
    InstanceRegistry × Option FutureState × Except GuestError Bytes :=
  let p := reg.removeFuture stateId
  match p.2 with
  | some st => (p.1, some st.abandon, .ok [])
  | none => (p.1, none, .error .notFound)

/-! ## Session hostcall payloads (crates/abi/src/session.rs) -/

/-- The `SessionEntitlement` request payload. -/
structure SessionEntitlement : Type where
  sessionId : Nat
  targetId : Nat
  capability : Capability
deriving DecidableEq, Repr

/-- The `SessionResource` request payload. -/
structure SessionResource : Type where
  sessionId : Nat
  targetId : Nat
  capability : Capability
  resourceId : Nat
deriving DecidableEq, Repr

/-- The `SessionRemove` request payload. -/
structure SessionRemove : Type where
  sessionId : Nat
  targetId : Nat
deriving DecidableEq, Repr

namespace InstanceRegistry

/-- Modelled from the spec: `grant_session_resource(parent_slot, cap, slot)`
adds the child slot handle to the parent's scoped set for `cap`, returning
`false` if the parent is absent or does not hold `cap` (§4.1). The granted
value is the slot handle: the drivers in
crates/kernel/src/hostcalls/session.rs authorise against the raw target
slot, and `revoke_session_resource` runs after the target slot has already
been removed. -/
def grantSessionResource (reg : InstanceRegistry) (parentSlot : Nat) (cap : Capability)
    (targetSlot : Nat) : InstanceRegistry × Bool :=
  match updateSession reg parentSlot (fun s => (s.addResource cap targetSlot)) with
  | none => (reg, false)
  | some (reg₂, changed) => if changed then (reg₂, true) else (reg, false)

/-- Modelled from the spec: `revoke_session_resource(parent_slot, cap, slot)`
is the inverse of the grant; the inner result is `NotFound` when the parent,
the capability or the granted handle is absent (§4.1). -/
def revokeSessionResource (reg : InstanceRegistry) (parentSlot : Nat) (cap : Capability)
    (targetSlot : Nat) : InstanceRegistry × Except RegistryError Unit :=
  match updateSession reg parentSlot (fun s => (s.rmResource cap targetSlot)) with
  | none => (reg, .error .notFound)
  | some (reg₂, changed) =>
    if changed then (reg₂, .ok ()) else (reg, .error .notFound)

end InstanceRegistry

open InstanceRegistry

/-- From `SessionAddEntitlementDriver` in crates/kernel/src/hostcalls/session.rs:
read the parent session (missing → `NotFound`), require
`authorise(SessionLifecycle, target_slot)` (else `PermissionDenied`), then
apply `add_entitlement` to the target session (missing → `NotFound`). -/
def sessionAddEntitlementDriver (reg : InstanceRegistry) (input : SessionEntitlement) :
    InstanceRegistry × Except GuestError Unit :=
  match reg.withSession input.sessionId with
  | none => (reg, .error .notFound)
  | some parent =>
    if parent.authorise .sessionLifecycle input.targetId then
      match reg.updateSession input.targetId
          (fun t => (t.addEntitlement input.capability, ())) with
      | none => (reg, .error .notFound)
      | some (reg₂, _) => (reg₂, .ok ())
    else (reg, .error .permissionDenied)

/-- From `SessionRemoveEntitlementDriver` in
crates/kernel/src/hostcalls/session.rs: same authorisation gate, applying
`rm_entitlement` to the target session. -/
def sessionRmEntitlementDriver (reg : InstanceRegistry) (input : SessionEntitlement) :
    InstanceRegistry × Except GuestError Unit :=
  match reg.withSession input.sessionId with
  | none => (reg, .error .notFound)
  | some parent =>
    if parent.authorise .sessionLifecycle input.targetId then
      match reg.updateSession input.targetId
          (fun t => (t.rmEntitlement input.capability, ())) with
      | none => (reg, .error .notFound)
      | some (reg₂, _) => (reg₂, .ok ())
    else (reg, .error .permissionDenied)

/-- From `SessionAddResourceDriver` in crates/kernel/src/hostcalls/session.rs:
same authorisation gate, applying `add_resource` to the target session and
returning the change flag as `1`/`0`. -/
def sessionAddResourceDriver (reg : InstanceRegistry) (input : SessionResource) :
    InstanceRegistry × Except GuestError Nat :=
  match reg.withSession input.sessionId with
  | none => (reg, .error .notFound)
  | some parent =>
    if parent.authorise .sessionLifecycle input.targetId then
      match reg.updateSession input.targetId
          (fun t => t.addResource input.capability input.resourceId) with
      | none => (reg, .error .notFound)
      | some (reg₂, changed) => (reg₂, .ok (if changed then 1 else 0))
    else (reg, .error .permissionDenied)

/-- From `SessionRemoveResourceDriver` in
crates/kernel/src/hostcalls/session.rs: same authorisation gate, applying
`rm_resource` to the target session and returning the change flag as
`1`/`0`. -/
def sessionRmResourceDriver (reg : InstanceRegistry) (input : SessionResource) :
    InstanceRegistry × Except GuestError Nat :=
  match reg.withSession input.sessionId with
  | none => (reg, .error .notFound)
  | some parent =>
    if parent.authorise .sessionLifecycle input.targetId then
      match reg.updateSession input.targetId
          (fun t => t.rmResource input.capability input.resourceId) with
      | none => (reg, .error .notFound)
      | some (reg₂, changed) => (reg₂, .ok (if changed then 1 else 0))
    else (reg, .error .permissionDenied)

/-- From `SessionRemoveDriver` in crates/kernel/src/hostcalls/session.rs:
same authorisation gate; then the session-service `remove` on the target (a
no-op success in the service model), removal of the target slot and its
entry, and revocation of the parent's grant for the removed slot. -/
def sessionRemoveDriver (reg : InstanceRegistry) (input : SessionRemove) :
    InstanceRegistry × Except GuestError Unit :=
  match reg.withSession input.sessionId with
  | none => (reg, .error .notFound)
  | some parent =>
    if parent.authorise .sessionLifecycle input.targetId then
      let reg₂ := reg.removeSessionSlot input.targetId
      let p := reg₂.revokeSessionResource input.sessionId .sessionLifecycle input.targetId
      match p.2 with
      | .ok _ => (p.1, .ok ())
      | .error e => (p.1, .error (.registryErr e))
    else (reg, .error .permissionDenied)

/-! ## Process lifecycle driver (crates/kernel/src/hostcalls/process.rs) -/

/-- From `ProcessStartDriver` in crates/kernel/src/hostcalls/process.rs:
after validation/resolution (`prep`), reserve a process id, run the
engine-specific start (abstracted as `start`, the generic
`ProcessLifecycleCapability` of the driver), and on failure discard the
reservation before surfacing the error; on success return the id. -/
def processStartDriver (reg : InstanceRegistry) (prep : Except GuestError Unit)
    (start : Nat → Except GuestError Unit) : InstanceRegistry × Except GuestError Nat :=
  match prep with
  | .error e => (reg, .error e)
  | .ok _ =>
    let p := reg.reserve none .process
    match start p.2 with
    | .ok _ => (p.1, .ok p.2)
    | .error e => (p.1.discard p.2, .error e)

/-! ## Shared-memory share / attach drivers (crates/kernel/src/hostcalls/shm.rs) -/

/-- From `ShmShareDriver` in crates/kernel/src/hostcalls/shm.rs: resolve the
local slot (missing slot or dead resource → `NotFound`), require the entry
kind to be `SharedMemory` (else `InvalidArgument`), then mint or reuse the
shared alias. -/
def shmShareDriver (reg : InstanceRegistry) (resourceSlot : Nat) :
    InstanceRegistry × Except GuestError Nat :=
  match reg.entry resourceSlot with
  | none => (reg, .error .notFound)
  | some rid =>
    match reg.metadata rid with
    | none => (reg, .error .notFound)
    | some meta =>
      if meta.1 ≠ .sharedMemory then (reg, .error .invalidArgument)
      else
        let p := reg.shareHandle rid
        (p.1, .ok p.2)

/-- From `ShmAttachDriver` in crates/kernel/src/hostcalls/shm.rs: resolve the
shared id (unknown → `NotFound`), check the entry is live and of kind
`SharedMemory` (else `NotFound` / `InvalidArgument`), read the stored
region, and register the resource under a fresh local slot. -/
def shmAttachDriver (reg : InstanceRegistry) (sharedId : Nat) :
    InstanceRegistry × Except GuestError ShmDescriptor :=
  match reg.resolveShared sharedId with
  | none => (reg, .error .notFound)
  | some rid =>
    match reg.metadata rid with
    | none => (reg, .error .notFound)
    | some meta =>
      if meta.1 ≠ .sharedMemory then (reg, .error .invalidArgument)
      else
        match reg.withRegion rid with
        | none => (reg, .error .notFound)
        | some region =>
          let p := reg.insertId rid
          (p.1, .ok ⟨p.2, sharedId, region⟩)

/-! ## Singleton registry service (crates/kernel/src/services/singleton_service.rs) -/

/-- From `SingletonRegistryService::register`: the backing resource must be
live (else `NotFound`); `register_singleton` is insert-if-absent, and a
present key fails with `StableIdExists`. -/
def singletonRegister (reg : InstanceRegistry) (id : DependencyId) (resource : Nat) :
    InstanceRegistry × Except GuestError Unit :=
  match reg.metadata resource with
  | none => (reg, .error .notFound)
  | some _ =>
    let p := reg.registerSingleton id resource
    if p.2 then (p.1, .ok ()) else (p.1, .error .stableIdExists)

/-- From `SingletonRegistryService::lookup`: fail with `NotFound` when the
mapping is absent or the mapped resource no longer exists. -/
def singletonLookup (reg : InstanceRegistry) (id : DependencyId) : Except GuestError Nat :=
  match reg.singleton id with
  | none => .error .notFound
  | some resource =>
    match reg.metadata resource with
    | none => .error .notFound
    | some _ => .ok resource

/-! ## Shared-memory arena (crates/runtime/src/providers/shared_memory_arena.rs) -/

/-- The arena capacity `DEFAULT_ARENA_BYTES = 256 * 1024 * 1024`. -/
def defaultArenaBytes : Nat := 256 * 1024 * 1024

/-- The check `u32::is_power_of_two` on a `u32`-ranged `Nat`. -/
def isPowerOfTwoU32 (n : Nat) : Bool :=
  (List.range 32).any fun k => n == 2 ^ k

/-- From `align_up` in shared_memory_arena.rs: `mask = align - 1` (`None` for
`align = 0`), then `value.checked_add(mask)` masked with the `u64` bitwise
complement of `mask`. -/
def alignUp (value align : Nat) : Option Nat :=
  if align = 0 then none
  else
    let mask := align - 1
    (checkedAddU64 value mask).map fun s => s &&& (2 ^ 64 - 1 - mask)

/-- One stored allocation: the recorded `u32` length and the backing bytes. -/
structure Allocation : Type where
  len : Nat
  bytes : Bytes
deriving DecidableEq, Repr

/-- The `SharedMemoryDriver` state: the atomic bump offset, the arena
capacity, and the allocation table keyed by offset. -/
structure ArenaState : Type where
  nextOffset : Nat
  arenaBytes : Nat
  allocations : List (Nat × Allocation)
deriving DecidableEq, Repr

/-- A fresh driver as built by `SharedMemoryDriver::new`. -/
def ArenaState.new : ArenaState :=
  { nextOffset := 0, arenaBytes := defaultArenaBytes, allocations := [] }

/-- From `SharedMemoryDriver::alloc`: reject `size == 0` and zero or
non-power-of-two `align` with `InvalidArgument`; align the high-water mark
(`align_up`), add the size (both checked in `u64`, failures are
`InvalidArgument`); past-capacity requests fail with `WouldBlock`; otherwise
publish the new mark (the CAS always succeeds in this sequential model) and
store a zero-initialised buffer keyed by offset. The `u32` casts of offset
and length mirror the `GuestUint::try_from` calls. -/
def shmAlloc (s : ArenaState) (size align : Nat) : ArenaState × Except GuestError ShmRegion :=
  if size = 0 then (s, .error .invalidArgument)
  else if align = 0 || !isPowerOfTwoU32 align then (s, .error .invalidArgument)
  else
    match alignUp s.nextOffset align with
    | none => (s, .error .invalidArgument)
    | some aligned =>
      match checkedAddU64 aligned size with
      | none => (s, .error .invalidArgument)
      | some fin =>
        if s.arenaBytes < fin then (s, .error .wouldBlock)
        else
          let s₁ := { s with nextOffset := fin }
          match castU32 aligned with
          | none => (s₁, .error .invalidArgument)
          | some offset =>
            match castU32 size with
            | none => (s₁, .error .invalidArgument)
            | some len =>
              ({ s₁ with
                  allocations := aset offset ⟨len, List.replicate size 0⟩ s₁.allocations },
                .ok ⟨offset, len⟩)

/-- From `checked_bounds` in shared_memory_arena.rs: `offset + len` with `u32`
checked addition (overflow → `InvalidArgument`), then `end ≤ region.len`
(else `InvalidArgument`); the `usize` casts always succeed on the 64-bit
host. -/
def checkedBounds (regionLen offset len : Nat) : Except GuestError (Nat × Nat) :=
  match castU32 (offset + len) with
  | none => .error .invalidArgument
  | some fin =>
    if regionLen < fin then .error .invalidArgument
    else .ok (offset, fin)

/-- From `SharedMemoryDriver::read`: bounds-check, look up the allocation by
region offset (`NotFound` if absent), require the stored length to equal the
descriptor's (`InvalidArgument` otherwise), and return the byte slice
`bytes[start..end]`. -/
def arenaRead (s : ArenaState) (region : ShmRegion) (offset len : Nat) :
    Except GuestError Bytes :=
  match checkedBounds region.len offset len with
  | .error e => .error e
  | .ok bounds =>
    match alookup region.offset s.allocations with
    | none => .error .notFound
    | some alloc =>
      if alloc.len ≠ region.len then .error .invalidArgument
      else .ok ((alloc.bytes.drop bounds.1).take (bounds.2 - bounds.1))

/-- From `SharedMemoryDriver::write`: the length is the `u32` cast of the
input byte count, then bounds-check, allocation lookup and length check as
for `read`; the write replaces `bytes[start..end]` with the input. -/
def arenaWrite (s : ArenaState) (region : ShmRegion) (offset : Nat) (input : Bytes) :
    ArenaState × Except GuestError Unit :=
  match castU32 input.length with
  | none => (s, .error .invalidArgument)
  | some len =>
    match checkedBounds region.len offset len with
    | .error e => (s, .error e)
    | .ok bounds =>
      match alookup region.offset s.allocations with
      | none => (s, .error .notFound)
      | some alloc =>
        if alloc.len ≠ region.len then (s, .error .invalidArgument)
        else
          ({ s with
              allocations := aset region.offset
                ⟨alloc.len, alloc.bytes.take bounds.1 ++ input ++ alloc.bytes.drop bounds.2⟩
                s.allocations },
            .ok ())

/-! ## Concrete fixtures used by the witness theorems -/

/-- A shared state resolved by its driver task with `Err(WouldBlock)` (as the
arena driver produces when `aligned + size` exceeds the capacity). -/
def wouldBlockState : FutureState := ⟨some (.error .wouldBlock), false, none⟩

/-- A registry holding that resolved state under future slot `0`, with the
guest mailbox bound. -/
def wouldBlockReg : InstanceRegistry :=
  { nextId := 1
    resources := [(0, ⟨some (.future wouldBlockState), .future, none⟩)]
    nextShared := 0, shared := [], singletons := []
    nextSlot := 1, slots := [(0, 0)], mailbox := true }

/-- A registry whose future slot `0` resolved with `Ok [1, 2]`. -/
def readyReg : InstanceRegistry :=
  { nextId := 1
    resources := [(0, ⟨some (.future ⟨some (.ok [1, 2]), false, none⟩), .future, none⟩)]
    nextShared := 0, shared := [], singletons := []
    nextSlot := 1, slots := [(0, 0)], mailbox := true }

/-- An empty registry with a bound mailbox. -/
def emptyReg : InstanceRegistry :=
  { nextId := 0, resources := [], nextShared := 0, shared := [], singletons := []
    nextSlot := 0, slots := [], mailbox := true }

/-- A parent session holding no entitlements at all. -/
def plainParent : Session := Session.bootstrap [] [0]

/-- A target session, also without entitlements. -/
def plainTarget : Session := Session.bootstrap [] [1]

/-- A registry with the two plain sessions under slots `0` and `1`. -/
def twoSessionReg : InstanceRegistry :=
  { nextId := 2
    resources := [(0, ⟨some (.session plainParent), .session, none⟩),
      (1, ⟨some (.session plainTarget), .session, none⟩)]
    nextShared := 0, shared := [], singletons := []
    nextSlot := 2, slots := [(0, 0), (1, 1)], mailbox := false }

/-- A registry whose slot `0` holds a live non-`SharedMemory` resource (kind
`Other`), with shared alias `9` pointing at it. -/
def nonShmReg : InstanceRegistry :=
  { nextId := 1
    resources := [(0, ⟨some (.other 5), .other, none⟩)]
    nextShared := 10, shared := [(9, 0)], singletons := []
    nextSlot := 1, slots := [(0, 0)], mailbox := false }

/-- A registry with a live resource `0` mapped by singleton key `[3]`, a live
resource `1`, and a dangling singleton key `[4]` mapped to the dead id `5`. -/
def singletonReg : InstanceRegistry :=
  { nextId := 2
    resources := [(0, ⟨some (.other 0), .other, none⟩),
      (1, ⟨some (.other 1), .other, none⟩)]
    nextShared := 0, shared := []
    singletons := [(⟨[3]⟩, 0), (⟨[4]⟩, 5)]
    nextSlot := 0, slots := [], mailbox := false }

/-- An arena holding one 32-byte zeroed allocation at offset `0`. -/
def fixtureArena : ArenaState :=
  { nextOffset := 32, arenaBytes := defaultArenaBytes
    allocations := [(0, ⟨32, List.replicate 32 0⟩)] }

/-!
# Theorems

Helper lemmas first, then one theorem per claim (with its witness where the
statement carries hypotheses).
-/

/-! ## Association-list laws -/

theorem alookup_aerase_self {κ α : Type} [DecidableEq κ] (k : κ) (l : List (κ × α)) :
    alookup k (aerase k l) = none := by
  induction l with
  | nil => rfl
  | cons p rest ih =>
    by_cases h : p.1 = k
    · simpa [aerase, h] using ih
    · rw [aerase, if_neg h, alookup, if_neg (fun hk : k = p.1 => h hk.symm), ih]

theorem alookup_aerase_ne {κ α : Type} [DecidableEq κ] {k j : κ} (l : List (κ × α))
    (h : j ≠ k) : alookup j (aerase k l) = alookup j l := by
  induction l with
  | nil => rfl
  | cons p rest ih =>
    by_cases hpk : p.1 = k
    · have hjp : j ≠ p.1 := fun hj => h (hj ▸ hpk)
      rw [aerase, if_pos hpk, ih, alookup, if_neg hjp]
    · rw [aerase, if_neg hpk, alookup, alookup]
      by_cases hjp : j = p.1
      · rw [if_pos hjp, if_pos hjp]
      · rw [if_neg hjp, if_neg hjp, ih]

theorem alookup_aset_self {κ α : Type} [DecidableEq κ] (k : κ) (v : α) (l : List (κ × α)) :
    alookup k (aset k v l) = some v := by
  simp [aset, alookup]

theorem alookup_aset_ne {κ α : Type} [DecidableEq κ] {k j : κ} (v : α) (l : List (κ × α))
    (h : j ≠ k) : alookup j (aset k v l) = alookup j l := by
  simp [aset, alookup, h, alookup_aerase_ne l h]

/-! ## Registry future-slot lemmas -/

theorem futureState_inv {reg : InstanceRegistry} {slot : Nat} {st : FutureState}
    (h : reg.futureState slot = some st) :
    ∃ rid e, reg.entry slot = some rid ∧ alookup rid reg.resources = some e
      ∧ e.value = some (.future st) := by
  rcases h₁ : reg.entry slot with _ | rid
  · simp [InstanceRegistry.futureState, h₁] at h
  · rcases h₂ : alookup rid reg.resources with _ | e
    · simp [InstanceRegistry.futureState, h₁, h₂] at h
    · refine ⟨rid, e, rfl, h₂, ?_⟩
      rcases h₃ : e.value with _ | v
      · simp [InstanceRegistry.futureState, h₁, h₂, h₃] at h
      · cases v with
        | future st₂ =>
          simp only [InstanceRegistry.futureState, h₁, h₂, h₃, Option.some.injEq] at h
          rw [h]
        | session s => simp [InstanceRegistry.futureState, h₁, h₂, h₃] at h
        | region r => simp [InstanceRegistry.futureState, h₁, h₂, h₃] at h
        | process t => simp [InstanceRegistry.futureState, h₁, h₂, h₃] at h
        | other t => simp [InstanceRegistry.futureState, h₁, h₂, h₃] at h

theorem removeFuture_of_some {reg : InstanceRegistry} {slot : Nat} {st : FutureState}
    (h : reg.futureState slot = some st) :
    ∃ rid, reg.entry slot = some rid ∧
      reg.removeFuture slot =
        ({ reg with
            slots := aerase slot reg.slots
            resources := aerase rid reg.resources
            shared := reg.shared.filter fun p => decide (p.2 ≠ rid) },
          some st) := by
  obtain ⟨rid, e, h₁, h₂, h₃⟩ := futureState_inv h
  exact ⟨rid, h₁, by simp [InstanceRegistry.removeFuture, h₁, h₂, h₃]⟩

theorem removeFuture_of_none {reg : InstanceRegistry} {slot : Nat}
    (h : reg.futureState slot = none) : reg.removeFuture slot = (reg, none) := by
  rcases h₁ : reg.entry slot with _ | rid
  · simp [InstanceRegistry.removeFuture, h₁]
  · rcases h₂ : alookup rid reg.resources with _ | e
    · simp [InstanceRegistry.removeFuture, h₁, h₂]
    · rcases h₃ : e.value with _ | v
      · simp [InstanceRegistry.removeFuture, h₁, h₂, h₃]
      · cases v with
        | future st₂ => simp [InstanceRegistry.futureState, h₁, h₂, h₃] at h
        | session s => simp [InstanceRegistry.removeFuture, h₁, h₂, h₃]
        | region r => simp [InstanceRegistry.removeFuture, h₁, h₂, h₃]
        | process t => simp [InstanceRegistry.removeFuture, h₁, h₂, h₃]
        | other t => simp [InstanceRegistry.removeFuture, h₁, h₂, h₃]

theorem futureState_removeFuture (reg : InstanceRegistry) (slot : Nat) :
    ((reg.removeFuture slot).1).futureState slot = none := by
  rcases h : reg.futureState slot with _ | st
  · rw [removeFuture_of_none h]; exact h
  · obtain ⟨rid, _, h₂⟩ := removeFuture_of_some h
    rw [h₂]
    unfold InstanceRegistry.futureState InstanceRegistry.entry
    simp [alookup_aerase_self]

theorem pollState_of_futureState_none {reg : InstanceRegistry} {slot : Nat} (taskId : Nat)
    (h : reg.futureState slot = none) :
    pollState reg slot taskId = .ok (reg, .error .notFound) := by
  unfold pollState
  rw [h]

/-! ## Arithmetic lemmas for the arena allocator -/

theorem isPowerOfTwoU32_spec {n : Nat} (h : isPowerOfTwoU32 n = true) :
    ∃ k, k < 32 ∧ n = 2 ^ k := by
  simp only [isPowerOfTwoU32, List.any_eq_true, List.mem_range, beq_iff_eq] at h
  obtain ⟨k, hk, he⟩ := h
  exact ⟨k, hk, he⟩

theorem land_complement_mod (x k : Nat) (hk : k ≤ 64) :
    (x &&& (2 ^ 64 - 1 - (2 ^ k - 1))) % 2 ^ k = 0 := by
  have hmul : (2 : Nat) ^ (64 - k) * 2 ^ k = 2 ^ 64 := by
    rw [← pow_add]
    congr 1
    omega
  have honeK : (1 : Nat) ≤ 2 ^ k := Nat.one_le_two_pow
  have hone : (1 : Nat) ≤ 2 ^ (64 - k) := Nat.one_le_two_pow
  have hm : (2 : Nat) ^ 64 - 1 - (2 ^ k - 1) = (2 ^ (64 - k) - 1) * 2 ^ k := by
    have h₂ : ((2 : Nat) ^ (64 - k) - 1) * 2 ^ k = 2 ^ (64 - k) * 2 ^ k - 2 ^ k := by
      rw [Nat.sub_mul, one_mul]
    rw [hmul] at h₂
    omega
  rw [hm, ← Nat.and_pow_two_sub_one_eq_mod, Nat.and_assoc, Nat.and_pow_two_sub_one_eq_mod,
    Nat.mul_mod_left, Nat.and_zero]

/-! ## Claim theorems -/

/-- C1: the claim says a poll of a future whose driver task resolved with
`Err(WouldBlock)` returns pending while leaving the state slot alive. The
code disagrees: `poll_state` removes the slot for every taken result before
inspecting the error, so at this failing input the guest is told pending
(status word `0`) while the slot is already gone — a subsequent poll can only
find `NotFound`. This theorem evaluates the embedded code at that input:
slot `0` of `wouldBlockReg` holds a state resolved with `Err(WouldBlock)`;
polling returns the would-block (pending) result with the slot freed. -/
theorem pollState_resolved_wouldblock_frees_slot :
    wouldBlockReg.futureState 0 = some wouldBlockState
    ∧ wouldBlockState.result = some (.error .wouldBlock)
    ∧ pollState wouldBlockReg 0 7 =
        .ok ({ wouldBlockReg with resources := [], slots := [] }, .error .wouldBlock)
    ∧ ({ wouldBlockReg with resources := [], slots := [] } : InstanceRegistry).futureState 0 = none
    ∧ writePollResult 256 (.error .wouldBlock) = .ok driverResultPending := by
  refine ⟨by decide, by decide, by decide, by decide, by decide⟩

/-- C2: polling a slot with no stored future state returns `NotFound`; and a
poll that returned a ready (`Ok`) result removed the slot, so every
subsequent poll of the same slot returns `NotFound`. -/
theorem pollState_unknown_or_consumed_notFound (reg : InstanceRegistry) (slot taskId : Nat) :
    (reg.futureState slot = none → pollState reg slot taskId = .ok (reg, .error .notFound))
    ∧ (∀ reg₂ bytes taskId₂, pollState reg slot taskId = .ok (reg₂, .ok bytes) →
        pollState reg₂ slot taskId₂ = .ok (reg₂, .error .notFound)) := by
  constructor
  · intro h
    exact pollState_of_futureState_none taskId h
  · intro reg₂ bytes taskId₂ h
    rcases hfs : reg.futureState slot with _ | st
    · rw [pollState_of_futureState_none taskId hfs] at h
      simp at h
    · rcases hw : reg.waker taskId with _ | w
      · simp [pollState, hfs, hw] at h
      · rcases hres : st.result with _ | output
        · simp [pollState, hfs, hw, FutureState.registerWaker, FutureState.takeResult, hres] at h
        · simp only [pollState, hfs, hw, FutureState.registerWaker, FutureState.takeResult, hres,
            Except.ok.injEq, Prod.mk.injEq] at h
          obtain ⟨hreg, _⟩ := h
          have hnone : reg₂.futureState slot = none := by
            rw [← hreg]
            exact futureState_removeFuture reg slot
          exact pollState_of_futureState_none taskId₂ hnone

/-- C2 witness: on `emptyReg` a poll of slot `0` finds nothing; on `readyReg`
a poll of slot `0` returns the ready payload `[1, 2]`, and re-polling the
resulting registry returns `NotFound`. -/
theorem pollState_unknown_or_consumed_notFound_witness :
    emptyReg.futureState 0 = none
    ∧ pollState emptyReg 0 1 = .ok (emptyReg, .error .notFound)
    ∧ pollState readyReg 0 3 =
        .ok ({ readyReg with resources := [], slots := [] }, .ok [1, 2])
    ∧ pollState ({ readyReg with resources := [], slots := [] }) 0 4 =
        .ok ({ readyReg with resources := [], slots := [] }, .error .notFound) :=
  ⟨by decide,
    (pollState_unknown_or_consumed_notFound emptyReg 0 1).1 (by decide),
    by decide,
    (pollState_unknown_or_consumed_notFound readyReg 0 3).2
      ({ readyReg with resources := [], slots := [] }) [1, 2] 4 (by decide)⟩

/-- C3: dropping a slot that holds a live future state removes the slot,
marks the shared state `Abandoned` (dropping any stored result), and returns
`Ok` with the empty payload, which the transport encodes as ready(0);
dropping an already-removed slot leaves the registry untouched (the call
itself reports `NotFound` to the guest). -/
theorem dropState_spec (reg : InstanceRegistry) (slot : Nat) (st : FutureState) :
    (reg.futureState slot = some st →
      dropState reg slot = ((reg.removeFuture slot).1, some st.abandon, .ok [])
      ∧ (st.abandon).abandoned = true
      ∧ (st.abandon).result = none
      ∧ ((reg.removeFuture slot).1).futureState slot = none)
    ∧ (∀ capacity, writePollResult capacity (.ok ([] : Bytes)) = .ok 1
        ∧ driverDecodeResult 1 = .ready 0)
    ∧ (reg.futureState slot = none → dropState reg slot = (reg, none, .error .notFound)) := by
  refine ⟨?_, ?_, ?_⟩
  · intro h
    obtain ⟨rid, _, h₂⟩ := removeFuture_of_some h
    refine ⟨by simp [dropState, h₂], rfl, rfl, futureState_removeFuture reg slot⟩
  · intro capacity
    constructor
    · simp [writePollResult, encodeReadyLen, castU32, driverEncodeReady, driverHalfSpace]
    · decide
  · intro h
    simp [dropState, removeFuture_of_none h]

/-- C3 witness: dropping live slot `0` of `wouldBlockReg` removes it and
abandons the state; dropping slot `0` of `emptyReg` is a registry no-op. -/
theorem dropState_spec_witness :
    wouldBlockReg.futureState 0 = some wouldBlockState
    ∧ dropState wouldBlockReg 0 =
        ((wouldBlockReg.removeFuture 0).1, some wouldBlockState.abandon, .ok [])
    ∧ (wouldBlockState.abandon).abandoned = true
    ∧ emptyReg.futureState 0 = none
    ∧ dropState emptyReg 0 = (emptyReg, none, .error .notFound) :=
  ⟨by decide,
    ((dropState_spec wouldBlockReg 0 wouldBlockState).1 (by decide)).1,
    ((dropState_spec wouldBlockReg 0 wouldBlockState).1 (by decide)).2.1,
    by decide,
    (dropState_spec emptyReg 0 wouldBlockState).2.2 (by decide)⟩

/-- C4: every session-mutating driver (add/rm entitlement, add/rm resource,
remove), invoked with live parent and target session slots, mutates only
when the parent authorises `SessionLifecycle` for the target slot; when it
does not, the driver fails with `PermissionDenied` and the registry — in
particular the target session — is unchanged. -/
theorem sessionMutations_require_authorisation (reg : InstanceRegistry) (p t : Session)
    (ps ts : Nat) (cap : Capability) (r : Nat)
    (hp : reg.withSession ps = some p)
    (ht : reg.withSession ts = some t)
    (hauth : p.authorise .sessionLifecycle ts = false) :
    sessionAddEntitlementDriver reg ⟨ps, ts, cap⟩ = (reg, .error .permissionDenied)
    ∧ sessionRmEntitlementDriver reg ⟨ps, ts, cap⟩ = (reg, .error .permissionDenied)
    ∧ sessionAddResourceDriver reg ⟨ps, ts, cap, r⟩ = (reg, .error .permissionDenied)
    ∧ sessionRmResourceDriver reg ⟨ps, ts, cap, r⟩ = (reg, .error .permissionDenied)
    ∧ sessionRemoveDriver reg ⟨ps, ts⟩ = (reg, .error .permissionDenied)
    ∧ reg.withSession ts = some t := by
  refine ⟨?_, ?_, ?_, ?_, ?_, ht⟩
  · simp [sessionAddEntitlementDriver, hp, hauth]
  · simp [sessionRmEntitlementDriver, hp, hauth]
  · simp [sessionAddResourceDriver, hp, hauth]
  · simp [sessionRmResourceDriver, hp, hauth]
  · simp [sessionRemoveDriver, hp, hauth]

/-- C4 witness: in `twoSessionReg` the parent at slot `0` holds no
entitlements, so it does not authorise `SessionLifecycle` for slot `1`, and
every mutation driver is denied without touching the registry. -/
theorem sessionMutations_require_authorisation_witness :
    twoSessionReg.withSession 0 = some plainParent
    ∧ plainParent.authorise .sessionLifecycle 1 = false
    ∧ sessionAddEntitlementDriver twoSessionReg ⟨0, 1, .timeRead⟩
        = (twoSessionReg, .error .permissionDenied)
    ∧ sessionRmEntitlementDriver twoSessionReg ⟨0, 1, .timeRead⟩
        = (twoSessionReg, .error .permissionDenied)
    ∧ sessionAddResourceDriver twoSessionReg ⟨0, 1, .timeRead, 5⟩
        = (twoSessionReg, .error .permissionDenied)
    ∧ sessionRmResourceDriver twoSessionReg ⟨0, 1, .timeRead, 5⟩
        = (twoSessionReg, .error .permissionDenied)
    ∧ sessionRemoveDriver twoSessionReg ⟨0, 1⟩
        = (twoSessionReg, .error .permissionDenied) := by
  have h := sessionMutations_require_authorisation twoSessionReg plainParent plainTarget
    0 1 .timeRead 5 (by decide) (by decide) (by decide)
  exact ⟨by decide, by decide, h.1, h.2.1, h.2.2.1, h.2.2.2.1, h.2.2.2.2.1⟩

/-- C5: a `process::start` invocation whose engine-specific start fails
discards the reserved process id before surfacing the error: the driver
returns the start error, the reservation that existed after `reserve` is
gone, and `metadata` for the reserved id is `None` afterwards. -/
theorem processStart_failure_leaves_no_metadata (reg : InstanceRegistry) (e : GuestError)
    (start : Nat → Except GuestError Unit)
    (h : start reg.nextId = .error e) :
    processStartDriver reg (.ok ()) start
      = (((reg.reserve none .process).1).discard reg.nextId, .error e)
    ∧ ((reg.reserve none .process).1).metadata reg.nextId = some (.process, none)
    ∧ (processStartDriver reg (.ok ()) start).1.metadata reg.nextId = none := by
  have hmain : processStartDriver reg (.ok ()) start
      = (((reg.reserve none .process).1).discard reg.nextId, .error e) := by
    simp [processStartDriver, InstanceRegistry.reserve, h, InstanceRegistry.discard]
  refine ⟨hmain, ?_, ?_⟩
  · simp [InstanceRegistry.reserve, InstanceRegistry.metadata, alookup_aset_self]
  · rw [hmain]
    simp [InstanceRegistry.reserve, InstanceRegistry.discard, InstanceRegistry.metadata,
      alookup_aerase_self]

/-- C5 witness: a start capability that always fails, run against `emptyReg`,
reserves id `0` and leaves no metadata for it after the call returns. -/
theorem processStart_failure_leaves_no_metadata_witness :
    ((fun _ => .error (.subsystem "start failed") : Nat → Except GuestError Unit) emptyReg.nextId
        = .error (.subsystem "start failed"))
    ∧ processStartDriver emptyReg (.ok ()) (fun _ => .error (.subsystem "start failed"))
        = (((emptyReg.reserve none .process).1).discard emptyReg.nextId,
            .error (.subsystem "start failed"))
    ∧ (processStartDriver emptyReg (.ok ())
        (fun _ => .error (.subsystem "start failed"))).1.metadata emptyReg.nextId = none :=
  ⟨rfl,
    (processStart_failure_leaves_no_metadata emptyReg (.subsystem "start failed")
      (fun _ => .error (.subsystem "start failed")) rfl).1,
    (processStart_failure_leaves_no_metadata emptyReg (.subsystem "start failed")
      (fun _ => .error (.subsystem "start failed")) rfl).2.2⟩

/-- C6: `shm.alloc` returns `InvalidArgument` for `size == 0` and for zero or
non-power-of-two `align`; with valid arguments it aligns the high-water mark,
returns `WouldBlock` when the aligned mark plus the size exceeds the arena
capacity, and otherwise succeeds with a zero-initialised region whose offset
is a multiple of `align` and whose length equals `size`. The hypotheses are
the `u32` ranges of the request fields and the arena invariant of the
default-capacity driver built by `SharedMemoryDriver::new`. -/
theorem shmAlloc_boundary_spec (s : ArenaState) (size align : Nat)
    (hsize : size < 2 ^ 32) (halign : align < 2 ^ 32)
    (hcap : s.arenaBytes = defaultArenaBytes)
    (hnext : s.nextOffset ≤ s.arenaBytes) :
    (size = 0 → shmAlloc s size align = (s, .error .invalidArgument))
    ∧ ((align = 0 ∨ isPowerOfTwoU32 align = false) →
        shmAlloc s size align = (s, .error .invalidArgument))
    ∧ (size ≠ 0 → isPowerOfTwoU32 align = true →
        ∃ a, alignUp s.nextOffset align = some a
          ∧ a % align = 0
          ∧ (s.arenaBytes < a + size → shmAlloc s size align = (s, .error .wouldBlock))
          ∧ (a + size ≤ s.arenaBytes →
              shmAlloc s size align =
                ({ s with
                    nextOffset := a + size
                    allocations := aset a ⟨size, List.replicate size 0⟩ s.allocations },
                  .ok ⟨a, size⟩))) := by
  have h32 : (2 : Nat) ^ 32 = 4294967296 := by norm_num
  have h64 : (2 : Nat) ^ 64 = 18446744073709551616 := by norm_num
  have hdef : defaultArenaBytes = 268435456 := rfl
  refine ⟨?_, ?_, ?_⟩
  · intro h
    simp [shmAlloc, h]
  · intro h
    by_cases hz : size = 0
    · simp [shmAlloc, hz]
    · rcases h with h | h
      · simp [shmAlloc, hz, h]
      · simp [shmAlloc, hz, h]
  · intro hz hpow
    obtain ⟨k, hk, hke⟩ := isPowerOfTwoU32_spec hpow
    have hpos : 0 < align := by
      rw [hke]
      exact pow_pos (by norm_num) k
    have halign0 : align ≠ 0 := by omega
    have hnext₂ : s.nextOffset ≤ 268435456 := by
      rw [hcap, hdef] at hnext
      exact hnext
    have hsum : s.nextOffset + (align - 1) < 18446744073709551616 := by omega
    have ha : ((s.nextOffset + (align - 1)) &&& (18446744073709551615 - (align - 1)))
        ≤ s.nextOffset + (align - 1) := Nat.and_le_left
    refine ⟨(s.nextOffset + (align - 1)) &&& (18446744073709551615 - (align - 1)), ?_, ?_, ?_, ?_⟩
    · simp [alignUp, halign0, checkedAddU64, hsum]
    · have hmask : (18446744073709551615 : Nat) = 2 ^ 64 - 1 := by norm_num
      rw [hmask, hke]
      exact land_complement_mod (s.nextOffset + (2 ^ k - 1)) k (by omega)
    · intro hover
      have hfin : ((s.nextOffset + (align - 1)) &&& (18446744073709551615 - (align - 1))) + size
          < 18446744073709551616 := by omega
      simp [shmAlloc, hz, halign0, hpow, alignUp, checkedAddU64, hsum, hfin, hover]
    · intro hfit
      rw [hcap, hdef] at hfit
      have hfin : ((s.nextOffset + (align - 1)) &&& (18446744073709551615 - (align - 1))) + size
          < 18446744073709551616 := by omega
      have ha32 : ((s.nextOffset + (align - 1)) &&& (18446744073709551615 - (align - 1)))
          < 4294967296 := by omega
      have hsize₂ : size < 4294967296 := by omega
      have hnlt : ¬ (s.arenaBytes
          < ((s.nextOffset + (align - 1)) &&& (18446744073709551615 - (align - 1))) + size) := by
        rw [hcap, hdef]
        omega
      simp [shmAlloc, hz, halign0, hpow, alignUp, checkedAddU64, hsum, hfin,
        hnlt, castU32, ha32, hsize₂]

/-- C6 witness: on a fresh default arena, zero size and a non-power-of-two or
zero alignment are rejected; a 32-byte request with only 16 bytes left in
the arena would block; and `alloc(32, 8)` succeeds with the zeroed region
`[0, 32)`. -/
theorem shmAlloc_boundary_spec_witness :
    shmAlloc ArenaState.new 0 8 = (ArenaState.new, .error .invalidArgument)
    ∧ shmAlloc ArenaState.new 32 3 = (ArenaState.new, .error .invalidArgument)
    ∧ shmAlloc ArenaState.new 32 0 = (ArenaState.new, .error .invalidArgument)
    ∧ shmAlloc { ArenaState.new with nextOffset := defaultArenaBytes - 16 } 32 8
        = ({ ArenaState.new with nextOffset := defaultArenaBytes - 16 }, .error .wouldBlock)
    ∧ shmAlloc ArenaState.new 32 8
        = ({ ArenaState.new with
              nextOffset := 32
              allocations := aset 0 ⟨32, List.replicate 32 0⟩ ArenaState.new.allocations },
            .ok ⟨0, 32⟩) := by
  refine ⟨?_, ?_, ?_, ?_, ?_⟩
  · exact (shmAlloc_boundary_spec ArenaState.new 0 8 (by norm_num) (by norm_num) rfl
      (by decide)).1 rfl
  · exact (shmAlloc_boundary_spec ArenaState.new 32 3 (by norm_num) (by norm_num) rfl
      (by decide)).2.1 (Or.inr (by decide))
  · exact (shmAlloc_boundary_spec ArenaState.new 32 0 (by norm_num) (by norm_num) rfl
      (by decide)).2.1 (Or.inl rfl)
  · obtain ⟨a, hup, _, hover, _⟩ :=
      (shmAlloc_boundary_spec { ArenaState.new with nextOffset := defaultArenaBytes - 16 } 32 8
        (by norm_num) (by norm_num) rfl (by decide)).2.2 (by norm_num) (by decide)
    have hav : 268435440 = a :=
      Option.some.inj ((by decide :
        alignUp (defaultArenaBytes - 16) 8 = some 268435440).symm.trans hup)
    exact hover (by rw [← hav]; decide)
  · obtain ⟨a, hup, _, _, hfit⟩ :=
      (shmAlloc_boundary_spec ArenaState.new 32 8
        (by norm_num) (by norm_num) rfl (by decide)).2.2 (by norm_num) (by decide)
    have hav : 0 = a :=
      Option.some.inj ((by decide : alignUp 0 8 = some 0).symm.trans hup)
    have h := hfit (by rw [← hav]; decide)
    rw [← hav] at h
    exact h

/-- Reading back the byte range that a write just spliced into a buffer
returns exactly the written bytes. -/
theorem slice_of_splice (old b : Bytes) (start stop : Nat)
    (hs : start + b.length = stop) (hstop : stop ≤ old.length) :
    ((old.take start ++ b ++ old.drop stop).drop start).take (stop - start) = b := by
  have hl : (old.take start).length = start := by
    rw [List.length_take]
    omega
  rw [List.append_assoc, List.drop_left' hl, show stop - start = b.length by omega,
    List.take_left' rfl]

/-- C7: on an allocated region whose stored allocation matches the descriptor,
writing an in-bounds range and reading the same range back returns exactly
the written bytes; and both `read` and `write` return `InvalidArgument`
whenever `offset + len` exceeds the region length. -/
theorem arena_write_read_roundtrip (s : ArenaState) (region : ShmRegion)
    (offset : Nat) (input old : Bytes)
    (halloc : alookup region.offset s.allocations = some ⟨region.len, old⟩)
    (hlen : old.length = region.len)
    (hreg : region.len < 4294967296)
    (hbound : offset + input.length ≤ region.len) :
    (∃ s₂, arenaWrite s region offset input = (s₂, .ok ())
      ∧ arenaRead s₂ region offset input.length = .ok input)
    ∧ (∀ off₂ len₂, region.len < off₂ + len₂ →
        arenaRead s region off₂ len₂ = .error .invalidArgument
        ∧ ∀ input₂ : Bytes, input₂.length = len₂ →
            (arenaWrite s region off₂ input₂).2 = .error .invalidArgument) := by
  have hin32 : input.length < 4294967296 := by omega
  have hsum32 : offset + input.length < 4294967296 := by omega
  have hnot : ¬ region.len < offset + input.length := Nat.not_lt.mpr hbound
  constructor
  · refine ⟨{ s with
        allocations := aset region.offset
          ⟨region.len, old.take offset ++ input ++ old.drop (offset + input.length)⟩
          s.allocations }, ?_, ?_⟩
    · simp [arenaWrite, castU32, hin32, checkedBounds, hsum32, hnot, halloc]
    · have hsplice : List.take input.length
          (List.drop offset (List.take offset old
            ++ (input ++ List.drop (offset + input.length) old))) = input := by
        have h := slice_of_splice old input offset (offset + input.length) rfl (by omega)
        simpa using h
      simp [arenaRead, checkedBounds, castU32, hsum32, hnot, alookup_aset_self, hsplice]
  · intro off₂ len₂ hgt
    constructor
    · by_cases hov : off₂ + len₂ < 4294967296
      · simp [arenaRead, checkedBounds, castU32, hov, hgt]
      · simp [arenaRead, checkedBounds, castU32, hov]
    · intro input₂ hlen₂
      by_cases hil : len₂ < 4294967296
      · by_cases hov : off₂ + len₂ < 4294967296
        · simp [arenaWrite, castU32, hlen₂, hil, checkedBounds, hov, hgt]
        · simp [arenaWrite, castU32, hlen₂, hil, checkedBounds, hov]
      · simp [arenaWrite, castU32, hlen₂, hil]

/-- C7 witness: on the fixture arena's 32-byte region, writing `[10, 20, 30]`
at offset `4` and reading 3 bytes at offset `4` returns `[10, 20, 30]`; the
out-of-bounds range `[30, 33)` is rejected by both read and write. -/
theorem arena_write_read_roundtrip_witness :
    alookup (0 : Nat) fixtureArena.allocations = some ⟨32, List.replicate 32 0⟩
    ∧ (∃ s₂, arenaWrite fixtureArena ⟨0, 32⟩ 4 [10, 20, 30] = (s₂, .ok ())
        ∧ arenaRead s₂ ⟨0, 32⟩ 4 3 = .ok [10, 20, 30])
    ∧ arenaRead fixtureArena ⟨0, 32⟩ 30 3 = .error .invalidArgument
    ∧ (arenaWrite fixtureArena ⟨0, 32⟩ 30 [1, 2, 3]).2 = .error .invalidArgument := by
  have h := arena_write_read_roundtrip fixtureArena ⟨0, 32⟩ 4 [10, 20, 30]
    (List.replicate 32 0) (by decide) (by decide) (by norm_num) (by decide)
  exact ⟨by decide, h.1, (h.2 30 3 (by norm_num)).1, (h.2 30 3 (by norm_num)).2 [1, 2, 3] rfl⟩

/-- C8: registering a `DependencyId` that already has a mapping fails with
`StableIdExists` and leaves the original mapping unchanged (the registry is
returned untouched); lookup fails with `NotFound` when the mapping is absent
or when the mapped resource no longer exists. -/
theorem singleton_register_lookup_spec (reg : InstanceRegistry) (id : DependencyId)
    (r₀ rNew : Nat) (m : ResourceType × Option Nat)
    (hdup : reg.singleton id = some r₀)
    (hlive : reg.metadata rNew = some m) :
    singletonRegister reg id rNew = (reg, .error .stableIdExists)
    ∧ (singletonRegister reg id rNew).1.singleton id = some r₀
    ∧ (∀ id₂, reg.singleton id₂ = none → singletonLookup reg id₂ = .error .notFound)
    ∧ (∀ id₃ r₃, reg.singleton id₃ = some r₃ → reg.metadata r₃ = none →
        singletonLookup reg id₃ = .error .notFound) := by
  have hdup₂ : alookup id reg.singletons = some r₀ := hdup
  have hmain : singletonRegister reg id rNew = (reg, .error .stableIdExists) := by
    simp [singletonRegister, hlive, InstanceRegistry.registerSingleton, hdup₂]
  refine ⟨hmain, by rw [hmain]; exact hdup, ?_, ?_⟩
  · intro id₂ h
    simp [singletonLookup, h]
  · intro id₃ r₃ h₁ h₂
    simp [singletonLookup, h₁, h₂]

/-- C8 witness: in `singletonReg`, key `[3]` maps to the live resource `0`;
re-registering it against the live resource `1` fails with `StableIdExists`
and the mapping still resolves to `0`; key `[9]` has no mapping, and key
`[4]` maps to the dead id `5` — both lookups fail with `NotFound`. -/
theorem singleton_register_lookup_spec_witness :
    singletonReg.singleton ⟨[3]⟩ = some 0
    ∧ singletonRegister singletonReg ⟨[3]⟩ 1 = (singletonReg, .error .stableIdExists)
    ∧ (singletonRegister singletonReg ⟨[3]⟩ 1).1.singleton ⟨[3]⟩ = some 0
    ∧ singletonLookup singletonReg ⟨[9]⟩ = .error .notFound
    ∧ singletonLookup singletonReg ⟨[4]⟩ = .error .notFound := by
  have h := singleton_register_lookup_spec singletonReg ⟨[3]⟩ 0 1 (.other, none)
    (by decide) (by decide)
  exact ⟨by decide, h.1, h.2.1, h.2.2.1 ⟨[9]⟩ (by decide), h.2.2.2 ⟨[4]⟩ 5 (by decide) (by decide)⟩

/-- C9: the driver status word codec is a partitioned round trip — every byte
count below the partition point survives
`driver_decode_result ∘ driver_encode_ready`, every reserved (upper-half)
error code survives `driver_decode_result ∘ driver_encode_error`, and the
word `0` decodes to the pending sentinel (with the reserved message code
itself in the reserved range). -/
theorem driver_status_codec_roundtrip (n c : Nat)
    (hn : n < driverReadyLimit) (hc : ReservedErrorCode c) :
    (driverEncodeReady n).map driverDecodeResult = some (.ready n)
    ∧ driverDecodeResult (driverEncodeError c) = .errorCode c
    ∧ driverDecodeResult driverResultPending = .pending
    ∧ ReservedErrorCode driverErrorMessageCode := by
  obtain ⟨hc₁, hc₂⟩ := hc
  have hl : driverReadyLimit = 2147483647 := by norm_num [driverReadyLimit, driverHalfSpace]
  have hhalf : driverHalfSpace = 2147483648 := by norm_num [driverHalfSpace]
  rw [hl] at hn
  refine ⟨?_, ?_, by decide, ⟨by decide, by decide⟩⟩
  · have hn₂ : n + 1 < driverHalfSpace := by
      rw [hhalf]
      omega
    simp [driverEncodeReady, hn₂, driverDecodeResult]
  · have hc₀ : c ≠ 0 := by
      rw [hhalf] at hc₁
      omega
    simp [driverEncodeError, driverDecodeResult, hc₀, Nat.not_lt.mpr hc₁]

/-- C9 witness: the codec laws at byte count `3` and at the reserved message
code. -/
theorem driver_status_codec_roundtrip_witness :
    3 < driverReadyLimit
    ∧ ReservedErrorCode driverErrorMessageCode
    ∧ (driverEncodeReady 3).map driverDecodeResult = some (.ready 3)
    ∧ driverDecodeResult (driverEncodeError driverErrorMessageCode)
        = .errorCode driverErrorMessageCode
    ∧ driverDecodeResult driverResultPending = .pending := by
  have h := driver_status_codec_roundtrip 3 driverErrorMessageCode (by decide)
    ⟨by decide, by decide⟩
  exact ⟨by decide, ⟨by decide, by decide⟩, h.1, h.2.1, h.2.2.1⟩

/-- C10: for `shm::share` a slot resolving to a live entry of a kind other
than `SharedMemory` yields `InvalidArgument`, while a slot (or a slot whose
resource died) that does not resolve to a live entry yields `NotFound`; the
same classification holds for `shm::attach` through a shared id. -/
theorem shm_share_attach_type_checks (reg : InstanceRegistry) (slot sid rid : Nat)
    (kind : ResourceType) (parent : Option Nat) :
    (reg.entry slot = some rid → reg.metadata rid = some (kind, parent) →
      kind ≠ .sharedMemory → shmShareDriver reg slot = (reg, .error .invalidArgument))
    ∧ (reg.entry slot = none → shmShareDriver reg slot = (reg, .error .notFound))
    ∧ (reg.entry slot = some rid → reg.metadata rid = none →
        shmShareDriver reg slot = (reg, .error .notFound))
    ∧ (reg.resolveShared sid = some rid → reg.metadata rid = some (kind, parent) →
        kind ≠ .sharedMemory → shmAttachDriver reg sid = (reg, .error .invalidArgument))
    ∧ (reg.resolveShared sid = none → shmAttachDriver reg sid = (reg, .error .notFound))
    ∧ (reg.resolveShared sid = some rid → reg.metadata rid = none →
        shmAttachDriver reg sid = (reg, .error .notFound)) := by
  refine ⟨?_, ?_, ?_, ?_, ?_, ?_⟩
  · intro h₁ h₂ h₃
    simp [shmShareDriver, h₁, h₂, h₃]
  · intro h₁
    simp [shmShareDriver, h₁]
  · intro h₁ h₂
    simp [shmShareDriver, h₁, h₂]
  · intro h₁ h₂ h₃
    simp [shmAttachDriver, h₁, h₂, h₃]
  · intro h₁
    simp [shmAttachDriver, h₁]
  · intro h₁ h₂
    simp [shmAttachDriver, h₁, h₂]

/-- C10 witness: in `nonShmReg`, slot `0` holds the live `Other`-kind resource
`0` (shared alias `9`): sharing the slot and attaching the alias both yield
`InvalidArgument`, while the unknown slot `5` and the unknown alias `77`
yield `NotFound`. -/
theorem shm_share_attach_type_checks_witness :
    nonShmReg.entry 0 = some 0
    ∧ nonShmReg.metadata 0 = some (.other, none)
    ∧ shmShareDriver nonShmReg 0 = (nonShmReg, .error .invalidArgument)
    ∧ shmShareDriver nonShmReg 5 = (nonShmReg, .error .notFound)
    ∧ shmAttachDriver nonShmReg 9 = (nonShmReg, .error .invalidArgument)
    ∧ shmAttachDriver nonShmReg 77 = (nonShmReg, .error .notFound) := by
  have h := shm_share_attach_type_checks nonShmReg 0 9 0 .other none
  have h₂ := shm_share_attach_type_checks nonShmReg 5 77 0 .other none
  exact ⟨by decide, by decide,
    h.1 (by decide) (by decide) (by decide),
    h₂.2.1 (by decide),
    h.2.2.2.1 (by decide) (by decide) (by decide),
    h₂.2.2.2.2.1 (by decide)⟩

end Selium
